import Mathlib

/-!
Single-Item Processing Coordinator — shallow embedding.

This file embeds the single processing store of the repository
(`jsapp/js/components/processing/singleProcessingStore.ts`) together with the
API failure handler of the fetch wrapper (`handleApiFail`), and proves
properties of the embedded operations.

Modelling conventions:
* JavaScript `undefined` (and, for draft region codes, `null`) is `Option.none`;
  both nullish values behave identically in every comparison the store makes
  (they are only ever compared against plain strings), so they share one
  constructor.
* Objects keyed by strings (`response[qpath]`, the translation map) are
  association lists looked up by key.
* Network activity and user-visible notifications are returned as explicit
  `Effect` values; `trigger` (subscriber notification) carries no data and is
  not recorded.
* The store's getters `currentAssetUid` / `currentQuestionQpath` /
  `currentSubmissionEditId` read the current route; handlers take the resolved
  route parts as an explicit argument `cur`.
-/

namespace Kpi

/-- Language codes are plain strings (`LanguageCode` in the source). -/
abbrev LanguageCode := String

/-- Embeds `ProcessingTabName` from the source. -/
inductive TabName
  | transcript
  | translations
  | analysis
deriving DecidableEq, Repr

/-- An entry of a `DisplaysList`: one of the `StaticDisplays` enum values
(`Data`, `Audio`, `Transcript`) or a language code of a translation. -/
inductive Display
  | audio
  | data
  | transcript
  | language (code : LanguageCode)
deriving DecidableEq, Repr

/-- Embeds `SidebarDisplays`: a list of active sidebar displays for each tab. -/
structure SidebarDisplays where
  transcript : List Display
  translations : List Display
  analysis : List Display
deriving DecidableEq, Repr

/-- Read the display list of one tab. -/
def SidebarDisplays.get (d : SidebarDisplays) : TabName → List Display
  | .transcript => d.transcript
  | .translations => d.translations
  | .analysis => d.analysis

/-- Replace the display list of one tab. -/
def SidebarDisplays.setTab (d : SidebarDisplays) (tab : TabName) (l : List Display) :
    SidebarDisplays :=
  match tab with
  | .transcript => {d with transcript := l}
  | .translations => {d with translations := l}
  | .analysis => {d with analysis := l}

/-- Embeds `DefaultDisplays` / `getInitialDisplays` of the source. -/
def getInitialDisplays : SidebarDisplays :=
  { transcript := [.audio, .data],
    translations := [.audio, .data, .transcript],
    analysis := [.audio, .data, .transcript] }

/-- Embeds `Transx`: a persisted transcript or translation. -/
structure Transx where
  value : String
  languageCode : LanguageCode
  dateCreated : String
  dateModified : String
deriving DecidableEq, Repr

/-- Embeds `TransxDraft`: an uncommitted transcript/translation edit. All fields are
optional in the source; `regionCode` may also be `null`, which we collapse
into `none` (both nullish values fail every string comparison alike). -/
structure TransxDraft where
  value : Option String := none
  languageCode : Option LanguageCode := none
  regionCode : Option LanguageCode := none
deriving DecidableEq, Repr

/-- The automatic transcription/translation result the store reads from
`response[qpath]?.googlets` / `…?.googletx`: a value and its language code. -/
structure GoogleTxResponse where
  value : String
  languageCode : LanguageCode
deriving DecidableEq, Repr

/-- The per-question slice of a `ProcessingDataResponse`. The translation map
is an object keyed by language code; we keep it as an association list (an
absent `translation` object and an empty one behave identically in the
handler, so both are the empty list). -/
structure QpathResponse where
  transcript : Option Transx := none
  translation : List (LanguageCode × Transx) := []
  googlets : Option GoogleTxResponse := none
  googletx : Option GoogleTxResponse := none
deriving DecidableEq, Repr

/-- Embeds `ProcessingDataResponse`: processing payload keyed by question qpath. -/
abbrev ProcessingDataResponse := List (String × QpathResponse)

/-- Embeds `response[qpath]` on the association-list model. -/
def lookupQpath (response : ProcessingDataResponse) (qpath : String) :
    Option QpathResponse :=
  (response.find? (fun p => p.1 == qpath)).map (fun p => p.2)

/-- One element of a `SubmissionsEditIds` list. -/
structure SubmissionEditId where
  editId : String
  hasResponse : Bool
deriving DecidableEq, Repr

/-- Embeds `SubmissionsEditIds`: per-qpath lists of submission edit ids. -/
abbrev SubmissionsEditIds := List (String × List SubmissionEditId)

/-- The store keeps the fetched submission record as-is and never looks inside
it (`data.submissionData`), so we model it as an opaque payload. -/
structure SubmissionResponse where
  raw : String
deriving DecidableEq, Repr

/-- Embeds `AutoTranscriptionEvent` from the source. -/
structure AutoTranscriptionEvent where
  response : ProcessingDataResponse
  submissionEditId : String
deriving DecidableEq, Repr

/-- The body of a `FailResponse.responseJSON`, as far as the store reads it. -/
structure ResponseJSON where
  detail : Option String := none
  error : Option String := none
deriving DecidableEq, Repr

/-- Embeds `FailResponse` (from `js/dataInterface`), as far as the embedded handlers
read it: HTTP status, status text, raw response text and parsed JSON body. -/
structure FailResponse where
  status : Nat := 0
  statusText : String := ""
  responseText : Option String := none
  responseJSON : Option ResponseJSON := none
deriving DecidableEq, Repr

/-- The argument of `onAnyCallFailed`: a `FailResponse` or, for calls aborted
because features are not enabled, a plain string. -/
inductive FailInput
  | plainString (message : String)
  | failResponse (response : FailResponse)
deriving DecidableEq, Repr

/-- Modelled from the spec: the Location Context Resolver (§4.1; the source's
`getProcessingPathParts` in `js/components/processing/processingUtils`, which
is not among the embedded files) derives `assetUid`, `qpath`,
`submissionEditId` and the active tab from a location. We represent a location
directly by its resolved parts, so the resolver is the identity and two
locations are equal exactly when their parts are. -/
structure PathParts where
  assetUid : String
  qpath : String
  submissionEditId : String
  tab : Option TabName
deriving DecidableEq, Repr

/-- Embeds `SingleProcessingStoreData` from the source. -/
structure StoreData where
  transcript : Option Transx := none
  transcriptDraft : Option TransxDraft := none
  translations : List Transx := []
  translationDraft : Option TransxDraft := none
  source : Option String := none
  submissionData : Option SubmissionResponse := none
  submissionsEditIds : Option SubmissionsEditIds := none
  isPristine : Bool := true
  isFetchingData : Bool := false
  isPollingForTranscript : Bool := false
deriving DecidableEq, Repr

/-- The private fields of `SingleProcessingStore` together with its `data`.
The abort handle (`abortFetchData`) is identified by a number so that its
invocation is observable. -/
structure Store where
  abortFetchData : Option Nat := none
  previousPath : Option PathParts := none
  areEditIdsLoaded : Bool := false
  isSubmissionLoaded : Bool := false
  isProcessingDataLoaded : Bool := false
  displays : SidebarDisplays := getInitialDisplays
  analysisTabHasUnsavedWork : Bool := false
  data : StoreData := {}
deriving DecidableEq, Repr

/-- Observable side effects of the store: gateway calls, abort-handle
invocations and user-visible error notifications. -/
inductive Effect
  | abortInvoked (handle : Nat)
  | getSubmissionByUuid (assetUid submissionEditId : String)
  | getProcessingSubmissions (assetUid : String)
  | getProcessingData (assetUid submissionEditId : String)
  | activateAsset (assetUid : String)
  | mutationRequest (kind : String) (assetUid qpath submissionEditId : String)
  | notifyError (message : String)
deriving DecidableEq, Repr

/-- The collaborators `onRouteChange` consults: whether the asset record is in
the asset store, whether processing is activated for it, and whether the
current location is a single-processing route. -/
structure Env where
  isAssetLoaded : Bool
  isProcessingActivated : Bool
  isProcessingRoute : Bool
deriving DecidableEq, Repr

/-- Embeds `resetProcessingData` of the source. -/
def resetProcessingData (s : Store) : Store :=
  { s with
    isProcessingDataLoaded := false,
    data := { s.data with
      isPollingForTranscript := false,
      transcript := none,
      transcriptDraft := none,
      translations := [],
      translationDraft := none,
      source := none,
      isPristine := true } }

/-- Embeds `setNotPristine` of the source: `isPristine` becomes `false`. (The source
guards the assignment with `if (this.data.isPristine)` only to avoid a
redundant subscriber notification; the resulting state is the same.) -/
def setNotPristine (s : Store) : Store :=
  {s with data := {s.data with isPristine := false}}

/-- Embeds `fetchSubmissionData`: clear the loaded flag and the record, then call
`getSubmissionByUuid` for the current route. -/
def fetchSubmissionData (cur : PathParts) (s : Store) : Store × List Effect :=
  ({s with isSubmissionLoaded := false, data := {s.data with submissionData := none}},
   [.getSubmissionByUuid cur.assetUid cur.submissionEditId])

/-- Embeds `onGetSubmissionByUuidCompleted`. -/
def onGetSubmissionByUuidCompleted (s : Store) (response : SubmissionResponse) : Store :=
  {s with isSubmissionLoaded := true, data := {s.data with submissionData := some response}}

/-- Embeds `onGetSubmissionByUuidFailed`: marks the submission loaded anyway. -/
def onGetSubmissionByUuidFailed (s : Store) : Store :=
  {s with isSubmissionLoaded := true}

/-- Embeds `fetchEditIds`: clear the loaded flag and the index, then call
`getProcessingSubmissions`. (The question-path list passed along is computed
from asset metadata the store does not own; it does not affect the store's
state.) -/
def fetchEditIds (cur : PathParts) (s : Store) : Store × List Effect :=
  ({s with areEditIdsLoaded := false, data := {s.data with submissionsEditIds := none}},
   [.getProcessingSubmissions cur.assetUid])

/-- Embeds `onGetProcessingSubmissionsCompleted`. The index itself is built from the
response and asset metadata (`getAssetProcessingRows`, `getSurveyFlatPaths`,
from `js/assetUtils`, outside the embedded files); we take the built index as
the event payload and record how the store stores it. -/
def onGetProcessingSubmissionsCompleted (s : Store) (index : SubmissionsEditIds) : Store :=
  {s with areEditIdsLoaded := true, data := {s.data with submissionsEditIds := some index}}

/-- Embeds `onGetProcessingSubmissionsFailed`: marks the edit ids loaded anyway. -/
def onGetProcessingSubmissionsFailed (s : Store) : Store :=
  {s with areEditIdsLoaded := true}

/-- Embeds `fetchProcessingData`: invoke the abort handle of a prior in-flight payload
fetch when one exists, reset the processing data, and issue a new
`getProcessingData` call for the current route. (The source calls the handle
but does not delete it; it is replaced when the new call starts.) -/
def fetchProcessingData (cur : PathParts) (s : Store) : Store × List Effect :=
  let abortEffects : List Effect :=
    match s.abortFetchData with
    | some h => [.abortInvoked h]
    | none => []
  (resetProcessingData s,
   abortEffects ++ [.getProcessingData cur.assetUid cur.submissionEditId])

/-- Embeds `onFetchProcessingDataStarted`: remember the abort handle and raise the
fetching flag. -/
def onFetchProcessingDataStarted (s : Store) (abortHandle : Nat) : Store :=
  {s with abortFetchData := some abortHandle, data := {s.data with isFetchingData := true}}

/-- Embeds `getAvailableDisplays` of the source: the static displays (no transcript
reference on the transcript tab) followed by one entry per translation. -/
def getAvailableDisplays (translations : List Transx) (tabName : TabName) : List Display :=
  ([Display.audio, Display.data] ++
      (if tabName ≠ TabName.transcript then [Display.transcript] else [])) ++
    translations.map (fun t => Display.language t.languageCode)

/-- Embeds `cleanupDisplays` of the source. For each tab it computes
the filtering of the active list against the available list
but never assigns the filtered array anywhere (and the filter callback has no
return statement, so it would filter everything out anyway), so the active display lists — and the whole store — are left
exactly as they were. -/
def cleanupDisplays (s : Store) : Store := s

/-- Embeds `onFetchProcessingDataCompleted`: merge the payload into persisted state.
The transcript is kept only when both its value and its language code are
non-empty; a translation entry is kept only when its language code is
non-empty. Finally the payload counts as loaded and `cleanupDisplays` runs. -/
def onFetchProcessingDataCompleted (cur : PathParts) (s : Store)
    (response : ProcessingDataResponse) : Store :=
  let entry := lookupQpath response cur.qpath
  let transcriptResponse := entry.bind (fun e => e.transcript)
  let newTranscript : Option Transx :=
    match transcriptResponse with
    | some t => if t.value ≠ "" ∧ t.languageCode ≠ "" then some t else none
    | none => none
  let translationsResponse : List (LanguageCode × Transx) :=
    match entry with
    | some e => e.translation
    | none => []
  let translationsArray : List Transx :=
    translationsResponse.filterMap (fun p =>
      if p.2.languageCode ≠ "" then
        some { value := p.2.value, languageCode := p.2.languageCode,
               dateModified := p.2.dateModified, dateCreated := p.2.dateCreated }
      else none)
  cleanupDisplays
    { s with
      abortFetchData := none,
      isProcessingDataLoaded := true,
      data := { s.data with
        transcript := newTranscript,
        translations := translationsArray,
        isFetchingData := false } }

/-- The generic error text that `onAnyCallFailed` initialises its message
with before overwriting it. -/
def genericErrorMessage : String := "Something went wrong"

/-- JavaScript `a || b` on an optional string and a string: the left operand
wins exactly when it is defined and non-empty. -/
def jsOrString (a : Option String) (b : String) : String :=
  match a with
  | some sa => if sa ≠ "" then sa else b
  | none => b

/-- The message `onAnyCallFailed` surfaces. The initial generic text is
overwritten in both branches of the source: a plain string is shown verbatim,
an object failure shows `responseJSON?.detail || responseJSON?.error ||
statusText` (which is the bare `statusText` — possibly empty — when no JSON
detail is available). -/
def onAnyCallFailedMessage (input : FailInput) : String :=
  match input with
  | .plainString m => m
  | .failResponse r =>
      jsOrString (r.responseJSON.bind (fun j => j.detail))
        (jsOrString (r.responseJSON.bind (fun j => j.error)) r.statusText)

/-- Embeds `onAnyCallFailed`: notify with the computed message, drop the abort handle
and clear the fetching and polling flags. Nothing else changes. -/
def onAnyCallFailed (s : Store) (input : FailInput) : Store × List Effect :=
  ({ s with
     abortFetchData := none,
     data := {s.data with isFetchingData := false, isPollingForTranscript := false} },
   [.notifyError (onAnyCallFailedMessage input)])

/-- Embeds `onSetTranscriptCompleted`: stop fetching, replace the persisted transcript
when the response carries one, discard the draft, mark not pristine. -/
def onSetTranscriptCompleted (cur : PathParts) (s : Store)
    (response : ProcessingDataResponse) : Store :=
  let transcriptResponse := (lookupQpath response cur.qpath).bind (fun e => e.transcript)
  setNotPristine
    { s with data := { s.data with
        isFetchingData := false,
        transcript :=
          match transcriptResponse with
          | some t => some t
          | none => s.data.transcript,
        transcriptDraft := none } }

/-- Embeds `onDeleteTranscriptCompleted`. -/
def onDeleteTranscriptCompleted (s : Store) : Store :=
  setNotPristine {s with data := {s.data with isFetchingData := false, transcript := none}}

/-- Embeds `isAutoTranscriptionEventApplicable`: the event still belongs to the
submission on screen and the result's language code matches the draft's
language or region code. -/
def isAutoTranscriptionEventApplicable (cur : PathParts) (s : Store)
    (event : AutoTranscriptionEvent) : Bool :=
  match (lookupQpath event.response cur.qpath).bind (fun e => e.googlets) with
  | none => false
  | some g =>
      event.submissionEditId == cur.submissionEditId &&
      match s.data.transcriptDraft with
      | none => false
      | some draft =>
          draft.languageCode == some g.languageCode ||
          draft.regionCode == some g.languageCode

/-- Embeds `onRequestAutoTranscriptionCompleted`: bail out when there is no current
question, no poll in flight or no draft; otherwise, when the result is present
and still applicable, stop polling and write the transcribed value into the
draft; in any non-bailing case mark not pristine. -/
def onRequestAutoTranscriptionCompleted (cur : PathParts) (s : Store)
    (event : AutoTranscriptionEvent) : Store :=
  if cur.qpath = "" ∨ s.data.isPollingForTranscript = false ∨ s.data.transcriptDraft = none then
    s
  else
    let googleTsResponse := (lookupQpath event.response cur.qpath).bind (fun e => e.googlets)
    let s1 :=
      match googleTsResponse with
      | some g =>
          if isAutoTranscriptionEventApplicable cur s event then
            { s with data := { s.data with
                isPollingForTranscript := false,
                transcriptDraft :=
                  s.data.transcriptDraft.map (fun d => {d with value := some g.value}) } }
          else s
      | none => s
    setNotPristine s1

/-- Embeds `requestAutoTranscription`: raise the polling flag and issue the request. -/
def requestAutoTranscription (cur : PathParts) (s : Store) : Store × List Effect :=
  ({s with data := {s.data with isPollingForTranscript := true}},
   [.mutationRequest "requestAutoTranscription" cur.assetUid cur.qpath cur.submissionEditId])

/-- The five-second timer scheduled by `onRequestAutoTranscriptionInProgress`
firing: re-check applicability at fire time; when still applicable keep
polling and chain a new request, otherwise stop polling silently. -/
def onAutoTranscriptionTimerFired (cur : PathParts) (s : Store)
    (event : AutoTranscriptionEvent) : Store × List Effect :=
  if isAutoTranscriptionEventApplicable cur s event then
    requestAutoTranscription cur {s with data := {s.data with isPollingForTranscript := true}}
  else
    ({s with data := {s.data with isPollingForTranscript := false}}, [])

/-- Embeds `onSetTranslationCompleted`: replace the translations, discard the draft
and the source selection, mark not pristine. -/
def onSetTranslationCompleted (s : Store) (newTranslations : List Transx) : Store :=
  setNotPristine
    { s with data := { s.data with
        isFetchingData := false,
        translations := newTranslations,
        translationDraft := none,
        source := none } }

/-- Embeds `onRequestAutoTranslationCompleted`: when a draft exists and its language
or region code matches the result's language code, write the translated value
into the draft; always mark not pristine. -/
def onRequestAutoTranslationCompleted (cur : PathParts) (s : Store)
    (response : ProcessingDataResponse) : Store :=
  let googleTxResponse := (lookupQpath response cur.qpath).bind (fun e => e.googletx)
  let s1 := {s with data := {s.data with isFetchingData := false}}
  let s2 :=
    match googleTxResponse, s.data.translationDraft with
    | some g, some draft =>
        if draft.languageCode = some g.languageCode ∨ draft.regionCode = some g.languageCode then
          {s1 with data := {s1.data with translationDraft := some {draft with value := some g.value}}}
        else s1
    | _, _ => s1
  setNotPristine s2

/-- Embeds `setSource`. -/
def setSource (s : Store) (languageCode : LanguageCode) : Store :=
  {s with data := {s.data with source := some languageCode}}

/-- Embeds `setTranscript` (the user-initiated commit): raise the fetching flag and
issue the gateway call. -/
def setTranscript (cur : PathParts) (s : Store) (_languageCode : LanguageCode)
    (_value : String) : Store × List Effect :=
  ({s with data := {s.data with isFetchingData := true}},
   [.mutationRequest "setTranscript" cur.assetUid cur.qpath cur.submissionEditId])

/-- Embeds `deleteTranscript` (user-initiated). -/
def deleteTranscript (cur : PathParts) (s : Store) : Store × List Effect :=
  ({s with data := {s.data with isFetchingData := true}},
   [.mutationRequest "deleteTranscript" cur.assetUid cur.qpath cur.submissionEditId])

/-- Embeds `setTranscriptDraft`. -/
def setTranscriptDraft (s : Store) (newDraft : TransxDraft) : Store :=
  {s with data := {s.data with transcriptDraft := some newDraft}}

/-- Embeds `deleteTranscriptDraft`. -/
def deleteTranscriptDraft (s : Store) : Store :=
  {s with data := {s.data with transcriptDraft := none}}

/-- Embeds `getTranslation`: the persisted translation whose language code equals the
given one (an undefined code matches nothing). -/
def getTranslation (s : Store) (languageCode : Option LanguageCode) : Option Transx :=
  s.data.translations.find? (fun tr => some tr.languageCode == languageCode)

/-- Embeds `setTranslation` (the user-initiated commit). -/
def setTranslation (cur : PathParts) (s : Store) (_languageCode : LanguageCode)
    (_value : String) : Store × List Effect :=
  ({s with data := {s.data with isFetchingData := true}},
   [.mutationRequest "setTranslation" cur.assetUid cur.qpath cur.submissionEditId])

/-- Embeds `deleteTranslation` (user-initiated). -/
def deleteTranslation (cur : PathParts) (s : Store) (_languageCode : LanguageCode) :
    Store × List Effect :=
  ({s with data := {s.data with isFetchingData := true}},
   [.mutationRequest "deleteTranslation" cur.assetUid cur.qpath cur.submissionEditId])

/-- Embeds `requestAutoTranslation` (user-initiated). -/
def requestAutoTranslation (cur : PathParts) (s : Store) (_languageCode : String) :
    Store × List Effect :=
  ({s with data := {s.data with isFetchingData := true}},
   [.mutationRequest "requestAutoTranslation" cur.assetUid cur.qpath cur.submissionEditId])

/-- Embeds `setTranslationDraft`. -/
def setTranslationDraft (s : Store) (newDraft : TransxDraft) : Store :=
  {s with data := {s.data with translationDraft := some newDraft}}

/-- Embeds `deleteTranslationDraft`: clearing the draft also removes the source. -/
def deleteTranslationDraft (s : Store) : Store :=
  {s with data := {s.data with translationDraft := none, source := none}}

/-- Embeds `hasUnsavedTranscriptDraftValue`: the draft's value is defined and differs
from the persisted transcript's value (an absent transcript has no value, so
any defined draft value differs from it). -/
def hasUnsavedTranscriptDraftValue (s : Store) : Bool :=
  let draftValue := s.data.transcriptDraft.bind (fun d => d.value)
  draftValue.isSome && decide (draftValue ≠ s.data.transcript.map (fun t => t.value))

/-- Embeds `hasUnsavedTranslationDraftValue`: the draft's value is defined and differs
from the persisted translation value for the draft's language code. -/
def hasUnsavedTranslationDraftValue (s : Store) : Bool :=
  let draftValue := s.data.translationDraft.bind (fun d => d.value)
  let persistedValue :=
    (getTranslation s (s.data.translationDraft.bind (fun d => d.languageCode))).map
      (fun t => t.value)
  draftValue.isSome && decide (draftValue ≠ persistedValue)

/-- Embeds `hasAnyUnsavedWork`. -/
def hasAnyUnsavedWork (s : Store) : Bool :=
  hasUnsavedTranscriptDraftValue s || hasUnsavedTranslationDraftValue s ||
    s.analysisTabHasUnsavedWork

/-- Embeds `isReady`: processing activated for the asset and all three load flags. -/
def isReady (isProcessingActivated : Bool) (s : Store) : Bool :=
  isProcessingActivated && s.areEditIdsLoaded && s.isSubmissionLoaded &&
    s.isProcessingDataLoaded

/-- Embeds `setDisplays`. -/
def setDisplays (s : Store) (tab : TabName) (displays : List Display) : Store :=
  {s with displays := s.displays.setTab tab displays}

/-- Embeds `resetDisplays`. -/
def resetDisplays (s : Store) (tab : TabName) : Store :=
  {s with displays := s.displays.setTab tab (getInitialDisplays.get tab)}

/-- Embeds `setAnalysisTabHasUnsavedChanges`: store the flag; when it reports unsaved
work, mark not pristine. -/
def setAnalysisTabHasUnsavedChanges (s : Store) (hasUnsavedWork : Bool) : Store :=
  let s1 := {s with analysisTabHasUnsavedWork := hasUnsavedWork}
  if hasUnsavedWork then setNotPristine s1 else s1

/-- Embeds `fetchAllInitialDataForAsset`: without the asset nothing happens; without
activation only the activation call is issued; otherwise the submission, the
edit-id index and the processing payload are all fetched. -/
def fetchAllInitialDataForAsset (env : Env) (cur : PathParts) (s : Store) :
    Store × List Effect :=
  if env.isAssetLoaded = false then (s, [])
  else if env.isProcessingActivated = false then (s, [.activateAsset cur.assetUid])
  else
    let r1 := fetchSubmissionData cur s
    let r2 := fetchEditIds cur r1.1
    let r3 := fetchProcessingData cur r2.1
    (r3.1, r1.2 ++ r2.2 ++ r3.2)

/-- The analysis-tab cleanup at the top of `onRouteChange`: when the previous
tab was `analysis`, the unsaved-work flag is dropped. -/
def applyAnalysisTabCleanup (prevTab : Option TabName) (s : Store) : Store :=
  if prevTab = some TabName.analysis then setAnalysisTabHasUnsavedChanges s false else s

/-- Embeds `onRouteChange`, previous path known (cases 1 and 2 of the source):
a tab-only change discards both drafts and the source; a question or
submission change within the same asset refetches the payload and the
submission. -/
def routeChangeWithPrevious (p newParts : PathParts) (s : Store) : Store × List Effect :=
  let s1 := applyAnalysisTabCleanup p.tab s
  let s2 :=
    if p.assetUid = newParts.assetUid ∧ p.qpath = newParts.qpath ∧
       p.submissionEditId = newParts.submissionEditId ∧ p.tab ≠ newParts.tab then
      {s1 with data := {s1.data with transcriptDraft := none, translationDraft := none, source := none}}
    else s1
  if p.assetUid = newParts.assetUid ∧
     (p.qpath ≠ newParts.qpath ∨ p.submissionEditId ≠ newParts.submissionEditId) then
    let r1 := fetchProcessingData newParts s2
    let r2 := fetchSubmissionData newParts r1.1
    ({r2.1 with previousPath := some newParts}, r1.2 ++ r2.2)
  else
    ({s2 with previousPath := some newParts}, [])

/-- Embeds `onRouteChange`, no previous path (case 3 of the source): entering a
processing route fetches all initial data and restores the default displays. -/
def routeChangeFirst (env : Env) (newParts : PathParts) (s : Store) : Store × List Effect :=
  if env.isProcessingRoute then
    let r := fetchAllInitialDataForAsset env newParts s
    ({r.1 with displays := getInitialDisplays, previousPath := some newParts}, r.2)
  else
    ({s with previousPath := some newParts}, [])

/-- Embeds `onRouteChange`: skip non-changes, then dispatch on whether a previous
path is known; the new path is remembered either way. -/
def onRouteChange (env : Env) (s : Store) (newParts : PathParts) : Store × List Effect :=
  if s.previousPath = some newParts then (s, [])
  else
    match s.previousPath with
    | some p => routeChangeWithPrevious p newParts s
    | none => routeChangeFirst env newParts s

/-- Count of payload (`getProcessingData`) fetches in an effect list. -/
def countPayloadFetches (effects : List Effect) : Nat :=
  effects.countP (fun e => match e with | .getProcessingData _ _ => true | _ => false)

/-- Count of submission (`getSubmissionByUuid`) fetches in an effect list. -/
def countSubmissionFetches (effects : List Effect) : Nat :=
  effects.countP (fun e => match e with | .getSubmissionByUuid _ _ => true | _ => false)

/-- Count of edit-id-index (`getProcessingSubmissions`) fetches in an effect
list. -/
def countEditIdFetches (effects : List Effect) : Nat :=
  effects.countP (fun e => match e with | .getProcessingSubmissions _ => true | _ => false)

/-- The translation entries of the payload response for a question (the
key/value pairs of `response[qpath]?.translation`, empty when absent). -/
def translationEntries (response : ProcessingDataResponse) (qpath : String) :
    List (LanguageCode × Transx) :=
  match lookupQpath response qpath with
  | some e => e.translation
  | none => []

/-- Stated from the spec's words, to compare the code against: an
automatic-transcription poll result may be applied only when, at delivery
time, the event's submission edit id equals the current one and the result's
language code equals the draft's language code or its region code. -/
def specAutoTransApplicable (cur : PathParts) (s : Store)
    (event : AutoTranscriptionEvent) : Prop :=
  event.submissionEditId = cur.submissionEditId ∧
  ∃ g draft,
    (lookupQpath event.response cur.qpath).bind (fun e => e.googlets) = some g ∧
    s.data.transcriptDraft = some draft ∧
    (draft.languageCode = some g.languageCode ∨ draft.regionCode = some g.languageCode)

/-- The events a view session can deliver to the store between two context
changes. A route change to a different question or submission ends the
session (the coordinator resets the processing data then), so the only
in-session route event is a change of tab; every other constructor is one of
the store's listeners or public methods. `fetchProcessingCompleted` also
stands for `deleteTranslation.completed`, which the source routes to the same
handler. -/
inductive SessionEvent
  | getSubmissionCompleted (response : SubmissionResponse)
  | getSubmissionFailed
  | getProcessingSubmissionsCompleted (index : SubmissionsEditIds)
  | getProcessingSubmissionsFailed
  | fetchProcessingStarted (abortHandle : Nat)
  | fetchProcessingCompleted (response : ProcessingDataResponse)
  | anyCallFailed (input : FailInput)
  | setTranscriptCompleted (response : ProcessingDataResponse)
  | deleteTranscriptCompleted
  | autoTranscriptionCompleted (event : AutoTranscriptionEvent)
  | autoTranscriptionTimerFired (event : AutoTranscriptionEvent)
  | setTranslationCompleted (newTranslations : List Transx)
  | autoTranslationCompleted (response : ProcessingDataResponse)
  | userSetSource (languageCode : LanguageCode)
  | userSetTranscript (languageCode : LanguageCode) (value : String)
  | userDeleteTranscript
  | userRequestAutoTranscription
  | userSetTranscriptDraft (draft : TransxDraft)
  | userDeleteTranscriptDraft
  | userSetTranslation (languageCode : LanguageCode) (value : String)
  | userDeleteTranslation (languageCode : LanguageCode)
  | userRequestAutoTranslation (languageCode : LanguageCode)
  | userSetTranslationDraft (draft : TransxDraft)
  | userDeleteTranslationDraft
  | userSetDisplays (tab : TabName) (displays : List Display)
  | userResetDisplays (tab : TabName)
  | analysisUnsavedChanged (hasUnsavedWork : Bool)
  | tabChange (newTab : Option TabName)
deriving DecidableEq, Repr

/-- How one session event transforms the store (effects dropped; `cur` is the
session's fixed route context, a tab change keeps its question/submission and
only replaces the tab). -/
def stepSession (env : Env) (cur : PathParts) (s : Store) : SessionEvent → Store
  | .getSubmissionCompleted r => onGetSubmissionByUuidCompleted s r
  | .getSubmissionFailed => onGetSubmissionByUuidFailed s
  | .getProcessingSubmissionsCompleted index => onGetProcessingSubmissionsCompleted s index
  | .getProcessingSubmissionsFailed => onGetProcessingSubmissionsFailed s
  | .fetchProcessingStarted h => onFetchProcessingDataStarted s h
  | .fetchProcessingCompleted r => onFetchProcessingDataCompleted cur s r
  | .anyCallFailed input => (onAnyCallFailed s input).1
  | .setTranscriptCompleted r => onSetTranscriptCompleted cur s r
  | .deleteTranscriptCompleted => onDeleteTranscriptCompleted s
  | .autoTranscriptionCompleted e => onRequestAutoTranscriptionCompleted cur s e
  | .autoTranscriptionTimerFired e => (onAutoTranscriptionTimerFired cur s e).1
  | .setTranslationCompleted l => onSetTranslationCompleted s l
  | .autoTranslationCompleted r => onRequestAutoTranslationCompleted cur s r
  | .userSetSource lc => setSource s lc
  | .userSetTranscript lc v => (setTranscript cur s lc v).1
  | .userDeleteTranscript => (deleteTranscript cur s).1
  | .userRequestAutoTranscription => (requestAutoTranscription cur s).1
  | .userSetTranscriptDraft d => setTranscriptDraft s d
  | .userDeleteTranscriptDraft => deleteTranscriptDraft s
  | .userSetTranslation lc v => (setTranslation cur s lc v).1
  | .userDeleteTranslation lc => (deleteTranslation cur s lc).1
  | .userRequestAutoTranslation lc => (requestAutoTranslation cur s lc).1
  | .userSetTranslationDraft d => setTranslationDraft s d
  | .userDeleteTranslationDraft => deleteTranslationDraft s
  | .userSetDisplays tab d => setDisplays s tab d
  | .userResetDisplays tab => resetDisplays s tab
  | .analysisUnsavedChanged b => setAnalysisTabHasUnsavedChanges s b
  | .tabChange newTab => (onRouteChange env s {cur with tab := newTab}).1

/-- Run a list of session events through the store. -/
def runSession (env : Env) (cur : PathParts) (s : Store) (es : List SessionEvent) : Store :=
  es.foldl (stepSession env cur) s

/-- The store is inside a view session for context `cur`: a previous path is
recorded and it carries the session's asset, question and submission. -/
def sessionInvariant (cur : PathParts) (s : Store) : Prop :=
  ∃ p, s.previousPath = some p ∧ p.assetUid = cur.assetUid ∧ p.qpath = cur.qpath ∧
    p.submissionEditId = cur.submissionEditId

/-- The session events whose handler contains a `setNotPristine` call: the
transcript/translation commit and deletion completions, the automatic
transcription/translation completions, and an analysis edit reporting unsaved
work. -/
def mayMarkNotPristine : SessionEvent → Bool
  | .setTranscriptCompleted _ => true
  | .deleteTranscriptCompleted => true
  | .setTranslationCompleted _ => true
  | .autoTranscriptionCompleted _ => true
  | .autoTranslationCompleted _ => true
  | .analysisUnsavedChanged b => b
  | _ => false

/-- Whether a string contains a pattern (JavaScript `String.includes`). -/
def containsSub (s sub : String) : Bool := (s.splitOn sub).length != 1

/-- JavaScript truthiness of an optional string: defined and non-empty. -/
def jsTruthy (o : Option String) : Bool :=
  match o with
  | some str => str != ""
  | none => false

/-- What `handleApiFail` surfaces: the toast shown to the user and the message
captured for diagnostics. -/
structure ApiFailOutcome where
  toast : String
  captured : String
deriving DecidableEq, Repr

/-- Embeds `handleApiFail` of the fetch wrapper: a purposely aborted request
(status `0`, status text `"abort"`) returns immediately with no notification;
otherwise the response text (with an error message plucked out of an HTML body
by the browser's DOM parser, passed here as `domPluckErrormsg`) or a generic
message with status/offline detail is shown. `onLine` is
`window.navigator.onLine`. -/
def handleApiFail (domPluckErrormsg : String → Option String) (onLine : Bool)
    (response : FailResponse) (toastMessage : Option String) : Option ApiFailOutcome :=
  if response.status = 0 ∧ response.statusText = "abort" then none
  else
    let message0 : Option String := response.responseText
    let message1 : Option String :=
      match message0 with
      | some m =>
          if containsSub m "</html>" && containsSub m "</body>" then domPluckErrormsg m
          else some m
      | none => none
    let htmlMessage := message1
    let message2 : String :=
      if jsTruthy toastMessage || !(jsTruthy message1) then
        let base := jsOrString toastMessage "An error occurred"
        if response.status ≠ 0 ∨ response.statusText ≠ "" then
          base ++ "\n\n" ++ toString response.status ++ " " ++ response.statusText
        else if onLine = false then
          base ++ "\n\n" ++ "Your connection is offline"
        else base
      else message1.getD ""
    some {toast := message2, captured := jsOrString htmlMessage message2}

/-- Modelled from the spec: the processing-data gateway (`processingActions`,
whose module is not among the embedded sources) hands out a cancellation
handle for the payload fetch, and "invoking it must suppress any late-arriving
success/failure callback for that specific call" (§4.2). Delivery of a payload
fetch failure to the store is therefore empty for an aborted call. -/
def deliverPayloadFetchFailure (wasAborted : Bool) (response : FailResponse) :
    Option FailInput :=
  if wasAborted then none else some (FailInput.failResponse response)

/-- The store-side effects of a payload-fetch failure: nothing for an aborted
call, otherwise whatever `onAnyCallFailed` produces. -/
def payloadFetchFailureEffects (wasAborted : Bool) (s : Store) (response : FailResponse) :
    List Effect :=
  match deliverPayloadFetchFailure wasAborted response with
  | none => []
  | some input => (onAnyCallFailed s input).2

/-- A concrete processing location: asset `a1`, question `q`, submission
`e1`, transcript tab. -/
def exParts : PathParts :=
  {assetUid := "a1", qpath := "q", submissionEditId := "e1", tab := some TabName.transcript}

/-- Embeds `exParts` with a different submission edit id. -/
def exPartsOtherSubmission : PathParts := {exParts with submissionEditId := "e2"}

/-- Embeds `exParts` with a different tab. -/
def exPartsOtherTab : PathParts := {exParts with tab := some TabName.translations}

/-- A concrete environment: asset loaded, processing activated, on a
processing route. -/
def exEnv : Env :=
  {isAssetLoaded := true, isProcessingActivated := true, isProcessingRoute := true}

/-- A concrete store inside a session at `exParts` with a payload fetch in
flight (abort handle `7`). -/
def exStore : Store := {previousPath := some exParts, abortFetchData := some 7}

/-- A concrete store whose transcript-tab active displays hold a language no
longer available (translation `pl` was deleted: `translations` is empty). -/
def staleDisplaysStore : Store :=
  { displays := { transcript := [Display.language "pl"],
                  translations := [.audio, .data, .transcript],
                  analysis := [.audio, .data, .transcript] } }

/-- A concrete store polling for an automatic transcript with an English
draft. -/
def exDraftStore : Store :=
  { previousPath := some exParts,
    data := { isPollingForTranscript := true,
              transcriptDraft := some {languageCode := some "en"} } }

/-- A matching automatic-transcription result for question `q`, submission
`e1`, language `en`. -/
def exAutoEvent : AutoTranscriptionEvent :=
  { response := [("q", {googlets := some {value := "hello", languageCode := "en"}})],
    submissionEditId := "e1" }

/-- The same result delivered for a submission that is no longer on screen. -/
def exAutoEventStale : AutoTranscriptionEvent := {exAutoEvent with submissionEditId := "e9"}

/-- A payload response whose translation object has one key (`pl`) whose
entry carries an empty language code. -/
def emptyCodeResponse : ProcessingDataResponse :=
  [("q", { translation :=
      [("pl", {value := "x", languageCode := "", dateCreated := "", dateModified := ""})] })]

/-! Section Helper lemmas -/

/-- Embeds `applyAnalysisTabCleanup` only possibly drops the analysis unsaved-work
flag. -/
theorem applyAnalysisTabCleanup_eq (prevTab : Option TabName) (s : Store) :
    applyAnalysisTabCleanup prevTab s =
      if prevTab = some TabName.analysis then {s with analysisTabHasUnsavedWork := false}
      else s := by
  unfold applyAnalysisTabCleanup setAnalysisTabHasUnsavedChanges
  split <;> simp

/-- When the path actually changed and a previous path is recorded,
`onRouteChange` runs the with-previous branch. -/
theorem onRouteChange_eq_withPrevious (env : Env) (s : Store) (p newParts : PathParts)
    (hprev : s.previousPath = some p) (hne : p ≠ newParts) :
    onRouteChange env s newParts = routeChangeWithPrevious p newParts s := by
  unfold onRouteChange
  rw [hprev]
  simp [hne]

/-- The length of a conditional `filterMap` is the count of elements passing
the condition. -/
theorem filterMap_ite_length {α β : Type} (l : List α) (g : α → β) (p : α → Prop)
    [DecidablePred p] :
    (l.filterMap (fun a => if p a then some (g a) else none)).length =
      l.countP (fun a => decide (p a)) := by
  induction l with
  | nil => rfl
  | cons a t ih =>
      by_cases h : p a <;>
        simp [List.filterMap_cons, h, List.countP_cons, ih]

/-! Section C4 — `cleanupDisplays` leaves unavailable identifiers in place -/

/-- C4: the claim states that after `cleanupDisplays()` every tab's active
display list only holds identifiers present in that tab's available list. The
code contradicts this (and its own doc comment): it discards the result of
`filter`, so a deleted translation's language code stays active. Concretely,
with no translations left, `pl` is still an active display of the transcript
tab after cleanup although it is not an available one. -/
theorem cleanupDisplays_leaves_unavailable_display :
    Display.language "pl" ∈
      ((cleanupDisplays staleDisplaysStore).displays.get TabName.transcript) ∧
    Display.language "pl" ∉
      getAvailableDisplays (cleanupDisplays staleDisplaysStore).data.translations
        TabName.transcript := by
  decide

/-! Section C10 — readiness despite missing data -/

/-- C10: after the submission fetch and the edit-id-index fetch fail and the
payload fetch completes, all three load flags are set, so with processing
activated `isReady` is `true` although `submissionData` and
`submissionsEditIds` are both undefined. -/
theorem isReady_true_without_data :
    isReady true
        (onFetchProcessingDataCompleted exParts
          (onGetProcessingSubmissionsFailed
            (onGetSubmissionByUuidFailed
              (fetchProcessingData exParts
                (fetchEditIds exParts (fetchSubmissionData exParts {}).1).1).1)) []) = true ∧
    (onFetchProcessingDataCompleted exParts
        (onGetProcessingSubmissionsFailed
          (onGetSubmissionByUuidFailed
            (fetchProcessingData exParts
              (fetchEditIds exParts (fetchSubmissionData exParts {}).1).1).1))
        []).data.submissionData = none ∧
    (onFetchProcessingDataCompleted exParts
        (onGetProcessingSubmissionsFailed
          (onGetSubmissionByUuidFailed
            (fetchProcessingData exParts
              (fetchEditIds exParts (fetchSubmissionData exParts {}).1).1).1))
        []).data.submissionsEditIds = none := by
  refine ⟨rfl, rfl, rfl⟩

/-! Section C6 — unsaved-draft detection -/

/-- The transcript half of the `hasUnsavedValue` characterisation. -/
theorem hasUnsavedTranscript_iff (s : Store) :
    hasUnsavedTranscriptDraftValue s = true ↔
      ∃ draft v, s.data.transcriptDraft = some draft ∧ draft.value = some v ∧
        some v ≠ s.data.transcript.map (fun t => t.value) := by
  unfold hasUnsavedTranscriptDraftValue
  cases hd : s.data.transcriptDraft with
  | none => simp
  | some draft =>
      cases hv : draft.value with
      | none => simp [Option.bind, hv]
      | some v => simp [Option.bind, hv]

/-- The translation half of the `hasUnsavedValue` characterisation. -/
theorem hasUnsavedTranslation_iff (s : Store) :
    hasUnsavedTranslationDraftValue s = true ↔
      ∃ draft v, s.data.translationDraft = some draft ∧ draft.value = some v ∧
        some v ≠ (getTranslation s draft.languageCode).map (fun t => t.value) := by
  unfold hasUnsavedTranslationDraftValue
  cases hd : s.data.translationDraft with
  | none => simp
  | some draft =>
      cases hv : draft.value with
      | none => simp [Option.bind, hv]
      | some v => simp [Option.bind, hv]

/-- C6: `hasUnsavedTranscriptDraftValue` (resp.
`hasUnsavedTranslationDraftValue`) is `true` exactly when the corresponding
draft exists with a defined value differing from the persisted transcript
value (resp. the persisted translation value for the draft's language code),
and both are `false` immediately after a successful commit
(`onSetTranscriptCompleted` / `onSetTranslationCompleted`) or an explicit
draft clear (`deleteTranscriptDraft` / `deleteTranslationDraft`). -/
theorem hasUnsavedValue_characterisation :
    (∀ s : Store,
      (hasUnsavedTranscriptDraftValue s = true ↔
        ∃ draft v, s.data.transcriptDraft = some draft ∧ draft.value = some v ∧
          some v ≠ s.data.transcript.map (fun t => t.value)) ∧
      (hasUnsavedTranslationDraftValue s = true ↔
        ∃ draft v, s.data.translationDraft = some draft ∧ draft.value = some v ∧
          some v ≠ (getTranslation s draft.languageCode).map (fun t => t.value))) ∧
    (∀ (cur : PathParts) (s : Store) (response : ProcessingDataResponse),
      hasUnsavedTranscriptDraftValue (onSetTranscriptCompleted cur s response) = false) ∧
    (∀ s : Store, hasUnsavedTranscriptDraftValue (deleteTranscriptDraft s) = false) ∧
    (∀ (s : Store) (newTranslations : List Transx),
      hasUnsavedTranslationDraftValue (onSetTranslationCompleted s newTranslations) = false) ∧
    (∀ s : Store, hasUnsavedTranslationDraftValue (deleteTranslationDraft s) = false) := by
  refine ⟨fun s => ⟨hasUnsavedTranscript_iff s, hasUnsavedTranslation_iff s⟩, ?_, ?_, ?_, ?_⟩
  · intro cur s response
    simp [onSetTranscriptCompleted, setNotPristine, hasUnsavedTranscriptDraftValue]
  · intro s
    simp [deleteTranscriptDraft, hasUnsavedTranscriptDraftValue]
  · intro s newTranslations
    simp [onSetTranslationCompleted, setNotPristine, hasUnsavedTranslationDraftValue]
  · intro s
    simp [deleteTranslationDraft, hasUnsavedTranslationDraftValue]

/-! Section C8 — failure surfacing -/

/-- C8 counterexample: for an object failure with no JSON detail and an empty
status text, `onAnyCallFailed` surfaces the empty string, not the generic
fallback message — the initial generic text is overwritten in
both branches of the source. -/
theorem anyCallFailed_empty_message :
    onAnyCallFailedMessage (FailInput.failResponse {status := 500, statusText := ""}) = "" ∧
    genericErrorMessage ≠ "" ∧
    (onAnyCallFailed {} (FailInput.failResponse {status := 500, statusText := ""})).2 =
      [Effect.notifyError ""] := by
  refine ⟨rfl, by decide, rfl⟩

/-- C8 (amended): every failure delivered to `onAnyCallFailed` is surfaced to
the notification sink — a plain-string failure verbatim, an object failure as
`detail`, else `error`, else the bare `statusText` (which may be empty) —
and the handler clears the fetching and polling flags and drops the abort
handle while leaving the persisted transcript, translations, submission data,
edit-id index and both drafts untouched. -/
theorem anyCallFailed_behaviour (s : Store) (input : FailInput) :
    (onAnyCallFailed s input).2 = [Effect.notifyError (onAnyCallFailedMessage input)] ∧
    (∀ m, onAnyCallFailedMessage (FailInput.plainString m) = m) ∧
    (∀ r : FailResponse, r.responseJSON = none →
      onAnyCallFailedMessage (FailInput.failResponse r) = r.statusText) ∧
    (∀ (r : FailResponse) (j : ResponseJSON), r.responseJSON = some j →
      (j.detail = none ∨ j.detail = some "") → (j.error = none ∨ j.error = some "") →
      onAnyCallFailedMessage (FailInput.failResponse r) = r.statusText) ∧
    (∀ (r : FailResponse) (j : ResponseJSON) (d : String), r.responseJSON = some j →
      j.detail = some d → d ≠ "" →
      onAnyCallFailedMessage (FailInput.failResponse r) = d) ∧
    (onAnyCallFailed s input).1.data.isFetchingData = false ∧
    (onAnyCallFailed s input).1.data.isPollingForTranscript = false ∧
    (onAnyCallFailed s input).1.abortFetchData = none ∧
    (onAnyCallFailed s input).1.data.transcript = s.data.transcript ∧
    (onAnyCallFailed s input).1.data.translations = s.data.translations ∧
    (onAnyCallFailed s input).1.data.submissionData = s.data.submissionData ∧
    (onAnyCallFailed s input).1.data.submissionsEditIds = s.data.submissionsEditIds ∧
    (onAnyCallFailed s input).1.data.transcriptDraft = s.data.transcriptDraft ∧
    (onAnyCallFailed s input).1.data.translationDraft = s.data.translationDraft ∧
    (onAnyCallFailed s input).1.data.isPristine = s.data.isPristine ∧
    (onAnyCallFailed s input).1.areEditIdsLoaded = s.areEditIdsLoaded ∧
    (onAnyCallFailed s input).1.isSubmissionLoaded = s.isSubmissionLoaded ∧
    (onAnyCallFailed s input).1.isProcessingDataLoaded = s.isProcessingDataLoaded := by
  refine ⟨rfl, fun m => rfl, ?_, ?_, ?_, rfl, rfl, rfl, rfl, rfl, rfl, rfl, rfl, rfl, rfl,
    rfl, rfl, rfl⟩
  · intro r hr
    simp [onAnyCallFailedMessage, hr, jsOrString]
  · intro r j hr hd he
    rcases hd with hd | hd <;> rcases he with he | he <;>
      simp [onAnyCallFailedMessage, hr, hd, he, jsOrString]
  · intro r j d hr hd hne
    simp [onAnyCallFailedMessage, hr, hd, jsOrString, hne]

/-! Section C3 — payload merge -/

/-- The transcript the payload merge stores, written out. -/
theorem onFetchProcessingDataCompleted_transcript (cur : PathParts) (s : Store)
    (response : ProcessingDataResponse) :
    (onFetchProcessingDataCompleted cur s response).data.transcript =
      match (lookupQpath response cur.qpath).bind (fun e => e.transcript) with
      | some t => if t.value ≠ "" ∧ t.languageCode ≠ "" then some t else none
      | none => none := rfl

/-- The translations the payload merge stores, written out. -/
theorem onFetchProcessingDataCompleted_translations (cur : PathParts) (s : Store)
    (response : ProcessingDataResponse) :
    (onFetchProcessingDataCompleted cur s response).data.translations =
      (translationEntries response cur.qpath).filterMap (fun p =>
        if p.2.languageCode ≠ "" then
          some { value := p.2.value, languageCode := p.2.languageCode,
                 dateModified := p.2.dateModified, dateCreated := p.2.dateCreated }
        else none) := rfl

/-- C3 counterexample: a payload whose translation object has one language
code key (`pl`) whose entry carries an empty language code yields an empty
persisted translations list — not one entry per key as claimed. -/
theorem dropped_translation_entry :
    (onFetchProcessingDataCompleted exParts {} emptyCodeResponse).data.translations = [] ∧
    (translationEntries emptyCodeResponse exParts.qpath).length = 1 :=
  ⟨rfl, rfl⟩

/-- C3 (amended): after a completed payload fetch the persisted transcript is
set iff the response's transcript for the current question has a non-empty
value and a non-empty language code; the persisted translations hold one
entry per language code key of the response's translation object whose entry
carries a non-empty language code (and nothing else); the payload-loaded flag
becomes true, fetching stops, and the displays are those left by
`cleanupDisplays`. -/
theorem fetchProcessingDataCompleted_merge (cur : PathParts) (s : Store)
    (response : ProcessingDataResponse) :
    (∀ t : Transx,
      (onFetchProcessingDataCompleted cur s response).data.transcript = some t ↔
        ((lookupQpath response cur.qpath).bind (fun e => e.transcript) = some t ∧
          t.value ≠ "" ∧ t.languageCode ≠ "")) ∧
    ((onFetchProcessingDataCompleted cur s response).data.translations.length =
      (translationEntries response cur.qpath).countP
        (fun p => decide (p.2.languageCode ≠ ""))) ∧
    (∀ tr ∈ (onFetchProcessingDataCompleted cur s response).data.translations,
      ∃ p ∈ translationEntries response cur.qpath,
        p.2.languageCode = tr.languageCode ∧ p.2.value = tr.value ∧
        tr.languageCode ≠ "") ∧
    (onFetchProcessingDataCompleted cur s response).isProcessingDataLoaded = true ∧
    (onFetchProcessingDataCompleted cur s response).data.isFetchingData = false ∧
    (onFetchProcessingDataCompleted cur s response).displays = (cleanupDisplays s).displays := by
  refine ⟨?_, ?_, ?_, rfl, rfl, rfl⟩
  · intro t
    rw [onFetchProcessingDataCompleted_transcript]
    cases hT : (lookupQpath response cur.qpath).bind (fun e => e.transcript) with
    | none => simp
    | some t0 =>
        dsimp only
        by_cases hc : t0.value ≠ "" ∧ t0.languageCode ≠ ""
        · rw [if_pos hc]
          constructor
          · intro h
            rw [Option.some_inj] at h
            subst h
            exact ⟨rfl, hc.1, hc.2⟩
          · rintro ⟨h, -, -⟩
            exact h
        · rw [if_neg hc]
          constructor
          · intro h
            cases h
          · rintro ⟨h, hv, hl⟩
            rw [Option.some_inj] at h
            subst h
            exact absurd ⟨hv, hl⟩ hc
  · rw [onFetchProcessingDataCompleted_translations]
    exact filterMap_ite_length _ _ _
  · intro tr htr
    rw [onFetchProcessingDataCompleted_translations] at htr
    rcases List.mem_filterMap.mp htr with ⟨p, hp, hf⟩
    by_cases hc : p.2.languageCode ≠ ""
    · rw [if_pos hc, Option.some_inj] at hf
      refine ⟨p, hp, ?_, ?_, ?_⟩
      · rw [← hf]
      · rw [← hf]
      · rw [← hf]
        exact hc
    · rw [if_neg hc] at hf
      cases hf

/-! Section C1 and C7 — navigation transitions -/

/-- The analysis-tab cleanup leaves everything but the unsaved-work flag. -/
theorem applyAnalysisTabCleanup_parts (prevTab : Option TabName) (s : Store) :
    (applyAnalysisTabCleanup prevTab s).data = s.data ∧
    (applyAnalysisTabCleanup prevTab s).abortFetchData = s.abortFetchData ∧
    (applyAnalysisTabCleanup prevTab s).previousPath = s.previousPath ∧
    (applyAnalysisTabCleanup prevTab s).areEditIdsLoaded = s.areEditIdsLoaded ∧
    (applyAnalysisTabCleanup prevTab s).isSubmissionLoaded = s.isSubmissionLoaded ∧
    (applyAnalysisTabCleanup prevTab s).isProcessingDataLoaded = s.isProcessingDataLoaded ∧
    (applyAnalysisTabCleanup prevTab s).displays = s.displays := by
  rw [applyAnalysisTabCleanup_eq]
  split <;> simp

/-- Shape of `routeChangeWithPrevious` on a question/submission change within
the same asset (case 2): refetch payload then submission. -/
theorem routeChangeWithPrevious_case2 (p newParts : PathParts) (s : Store)
    (hasset : p.assetUid = newParts.assetUid)
    (hdiff : p.qpath ≠ newParts.qpath ∨ p.submissionEditId ≠ newParts.submissionEditId) :
    routeChangeWithPrevious p newParts s =
      ({ (fetchSubmissionData newParts
            (fetchProcessingData newParts (applyAnalysisTabCleanup p.tab s)).1).1
          with previousPath := some newParts },
       (fetchProcessingData newParts (applyAnalysisTabCleanup p.tab s)).2 ++
         (fetchSubmissionData newParts
            (fetchProcessingData newParts (applyAnalysisTabCleanup p.tab s)).1).2) := by
  have hc1 : ¬(p.assetUid = newParts.assetUid ∧ p.qpath = newParts.qpath ∧
      p.submissionEditId = newParts.submissionEditId ∧ p.tab ≠ newParts.tab) := by
    rintro ⟨-, hq, he, -⟩
    rcases hdiff with h | h
    · exact h hq
    · exact h he
  have hc2 : p.assetUid = newParts.assetUid ∧
      (p.qpath ≠ newParts.qpath ∨ p.submissionEditId ≠ newParts.submissionEditId) :=
    ⟨hasset, hdiff⟩
  unfold routeChangeWithPrevious
  dsimp only
  rw [if_neg hc1, if_pos hc2]

/-- Shape of `routeChangeWithPrevious` on a tab-only change (case 1): both
drafts and the source are discarded, nothing else happens. -/
theorem routeChangeWithPrevious_case1 (p newParts : PathParts) (s : Store)
    (ha : p.assetUid = newParts.assetUid) (hq : p.qpath = newParts.qpath)
    (he : p.submissionEditId = newParts.submissionEditId) (ht : p.tab ≠ newParts.tab) :
    routeChangeWithPrevious p newParts s =
      ({ applyAnalysisTabCleanup p.tab s with
          previousPath := some newParts,
          data := { (applyAnalysisTabCleanup p.tab s).data with
            transcriptDraft := none, translationDraft := none, source := none } }, []) := by
  have hc2 : ¬(p.assetUid = newParts.assetUid ∧
      (p.qpath ≠ newParts.qpath ∨ p.submissionEditId ≠ newParts.submissionEditId)) := by
    rintro ⟨-, h | h⟩
    · exact h hq
    · exact h he
  have hc1 : p.assetUid = newParts.assetUid ∧ p.qpath = newParts.qpath ∧
      p.submissionEditId = newParts.submissionEditId ∧ p.tab ≠ newParts.tab :=
    ⟨ha, hq, he, ht⟩
  unfold routeChangeWithPrevious
  dsimp only
  rw [if_neg hc2, if_pos hc1]

/-- C1: a navigation event that changes the submission edit id or the
question while the asset stays the same invokes the abort handle of the prior
in-flight payload fetch when one exists, resets the persisted transcript,
translations, source and pristine flag, and issues exactly one new payload
fetch and one new submission fetch — and no edit-id-index fetch; the stored
edit-id index is untouched. -/
theorem routeChange_contextSwitch (env : Env) (s : Store) (p newParts : PathParts)
    (hprev : s.previousPath = some p)
    (hasset : p.assetUid = newParts.assetUid)
    (hdiff : p.qpath ≠ newParts.qpath ∨ p.submissionEditId ≠ newParts.submissionEditId) :
    (onRouteChange env s newParts).1.data.transcript = none ∧
    (onRouteChange env s newParts).1.data.translations = [] ∧
    (onRouteChange env s newParts).1.data.source = none ∧
    (onRouteChange env s newParts).1.data.isPristine = true ∧
    (onRouteChange env s newParts).1.data.submissionsEditIds = s.data.submissionsEditIds ∧
    (∀ h, s.abortFetchData = some h →
      Effect.abortInvoked h ∈ (onRouteChange env s newParts).2) ∧
    (s.abortFetchData = none →
      ∀ h, Effect.abortInvoked h ∉ (onRouteChange env s newParts).2) ∧
    countPayloadFetches (onRouteChange env s newParts).2 = 1 ∧
    countSubmissionFetches (onRouteChange env s newParts).2 = 1 ∧
    countEditIdFetches (onRouteChange env s newParts).2 = 0 := by
  have hne : p ≠ newParts := by
    intro h
    subst h
    rcases hdiff with h | h <;> exact h rfl
  have hA := applyAnalysisTabCleanup_parts p.tab s
  rw [onRouteChange_eq_withPrevious env s p newParts hprev hne,
      routeChangeWithPrevious_case2 p newParts s hasset hdiff]
  refine ⟨?_, ?_, ?_, ?_, ?_, ?_, ?_, ?_, ?_, ?_⟩
  · simp [fetchSubmissionData, fetchProcessingData, resetProcessingData]
  · simp [fetchSubmissionData, fetchProcessingData, resetProcessingData]
  · simp [fetchSubmissionData, fetchProcessingData, resetProcessingData]
  · simp [fetchSubmissionData, fetchProcessingData, resetProcessingData]
  · simp [fetchSubmissionData, fetchProcessingData, resetProcessingData, hA.1]
  · intro h hh
    simp [fetchSubmissionData, fetchProcessingData, hA.2.1, hh]
  · intro hnone h
    simp [fetchSubmissionData, fetchProcessingData, hA.2.1, hnone]
  · simp [fetchSubmissionData, fetchProcessingData, hA.2.1, countPayloadFetches]
    cases s.abortFetchData <;> simp
  · simp [fetchSubmissionData, fetchProcessingData, hA.2.1, countSubmissionFetches]
    cases s.abortFetchData <;> simp
  · simp [fetchSubmissionData, fetchProcessingData, hA.2.1, countEditIdFetches]
    cases s.abortFetchData <;> simp

/-- C1 witness: the concrete session store at `exParts` with abort handle 7,
navigating to submission `e2`. -/
theorem routeChange_contextSwitch_witness :
    (onRouteChange exEnv exStore exPartsOtherSubmission).1.data.transcript = none ∧
    (onRouteChange exEnv exStore exPartsOtherSubmission).1.data.translations = [] ∧
    (onRouteChange exEnv exStore exPartsOtherSubmission).1.data.source = none ∧
    (onRouteChange exEnv exStore exPartsOtherSubmission).1.data.isPristine = true ∧
    (onRouteChange exEnv exStore exPartsOtherSubmission).1.data.submissionsEditIds =
      exStore.data.submissionsEditIds ∧
    (∀ h, exStore.abortFetchData = some h →
      Effect.abortInvoked h ∈ (onRouteChange exEnv exStore exPartsOtherSubmission).2) ∧
    (exStore.abortFetchData = none →
      ∀ h, Effect.abortInvoked h ∉ (onRouteChange exEnv exStore exPartsOtherSubmission).2) ∧
    countPayloadFetches (onRouteChange exEnv exStore exPartsOtherSubmission).2 = 1 ∧
    countSubmissionFetches (onRouteChange exEnv exStore exPartsOtherSubmission).2 = 1 ∧
    countEditIdFetches (onRouteChange exEnv exStore exPartsOtherSubmission).2 = 0 :=
  routeChange_contextSwitch exEnv exStore exParts exPartsOtherSubmission rfl rfl
    (Or.inr (by decide))

/-- C7: a navigation event that only changes the tab (same asset, question and
submission) sets both drafts and the source selection to `undefined`, issues
no effects at all (in particular zero network calls), and leaves the persisted
transcript, translations, submission data, edit-id index, pristine flag, all
load flags and the fetching/polling flags unchanged. -/
theorem routeChange_tabOnly (env : Env) (s : Store) (p newParts : PathParts)
    (hprev : s.previousPath = some p)
    (ha : p.assetUid = newParts.assetUid) (hq : p.qpath = newParts.qpath)
    (he : p.submissionEditId = newParts.submissionEditId) (ht : p.tab ≠ newParts.tab) :
    (onRouteChange env s newParts).1.data.transcriptDraft = none ∧
    (onRouteChange env s newParts).1.data.translationDraft = none ∧
    (onRouteChange env s newParts).1.data.source = none ∧
    (onRouteChange env s newParts).2 = [] ∧
    (onRouteChange env s newParts).1.data.transcript = s.data.transcript ∧
    (onRouteChange env s newParts).1.data.translations = s.data.translations ∧
    (onRouteChange env s newParts).1.data.submissionData = s.data.submissionData ∧
    (onRouteChange env s newParts).1.data.submissionsEditIds = s.data.submissionsEditIds ∧
    (onRouteChange env s newParts).1.data.isPristine = s.data.isPristine ∧
    (onRouteChange env s newParts).1.data.isFetchingData = s.data.isFetchingData ∧
    (onRouteChange env s newParts).1.data.isPollingForTranscript =
      s.data.isPollingForTranscript ∧
    (onRouteChange env s newParts).1.areEditIdsLoaded = s.areEditIdsLoaded ∧
    (onRouteChange env s newParts).1.isSubmissionLoaded = s.isSubmissionLoaded ∧
    (onRouteChange env s newParts).1.isProcessingDataLoaded = s.isProcessingDataLoaded ∧
    (onRouteChange env s newParts).1.abortFetchData = s.abortFetchData ∧
    (onRouteChange env s newParts).1.displays = s.displays := by
  have hne : p ≠ newParts := by
    intro h
    subst h
    exact ht rfl
  have hA := applyAnalysisTabCleanup_parts p.tab s
  rw [onRouteChange_eq_withPrevious env s p newParts hprev hne,
      routeChangeWithPrevious_case1 p newParts s ha hq he ht]
  refine ⟨rfl, rfl, rfl, rfl, ?_, ?_, ?_, ?_, ?_, ?_, ?_, ?_, ?_, ?_, ?_, ?_⟩ <;>
    simp [hA.1, hA.2.1, hA.2.2.2.1, hA.2.2.2.2.1, hA.2.2.2.2.2.1, hA.2.2.2.2.2.2]

/-- C7 witness: the concrete session store at `exParts` switching to the
translations tab. -/
theorem routeChange_tabOnly_witness :
    (onRouteChange exEnv exStore exPartsOtherTab).1.data.transcriptDraft = none ∧
    (onRouteChange exEnv exStore exPartsOtherTab).1.data.translationDraft = none ∧
    (onRouteChange exEnv exStore exPartsOtherTab).1.data.source = none ∧
    (onRouteChange exEnv exStore exPartsOtherTab).2 = [] ∧
    (onRouteChange exEnv exStore exPartsOtherTab).1.data.transcript =
      exStore.data.transcript ∧
    (onRouteChange exEnv exStore exPartsOtherTab).1.data.translations =
      exStore.data.translations ∧
    (onRouteChange exEnv exStore exPartsOtherTab).1.data.submissionData =
      exStore.data.submissionData ∧
    (onRouteChange exEnv exStore exPartsOtherTab).1.data.submissionsEditIds =
      exStore.data.submissionsEditIds ∧
    (onRouteChange exEnv exStore exPartsOtherTab).1.data.isPristine =
      exStore.data.isPristine ∧
    (onRouteChange exEnv exStore exPartsOtherTab).1.data.isFetchingData =
      exStore.data.isFetchingData ∧
    (onRouteChange exEnv exStore exPartsOtherTab).1.data.isPollingForTranscript =
      exStore.data.isPollingForTranscript ∧
    (onRouteChange exEnv exStore exPartsOtherTab).1.areEditIdsLoaded =
      exStore.areEditIdsLoaded ∧
    (onRouteChange exEnv exStore exPartsOtherTab).1.isSubmissionLoaded =
      exStore.isSubmissionLoaded ∧
    (onRouteChange exEnv exStore exPartsOtherTab).1.isProcessingDataLoaded =
      exStore.isProcessingDataLoaded ∧
    (onRouteChange exEnv exStore exPartsOtherTab).1.abortFetchData =
      exStore.abortFetchData ∧
    (onRouteChange exEnv exStore exPartsOtherTab).1.displays = exStore.displays :=
  routeChange_tabOnly exEnv exStore exParts exPartsOtherTab rfl rfl rfl rfl (by decide)

/-! Section C2 — applicability of automatic-transcription results -/

/-- The code's applicability check coincides with the condition stated by the
spec. -/
theorem isAutoTranscriptionEventApplicable_iff (cur : PathParts) (s : Store)
    (event : AutoTranscriptionEvent) :
    isAutoTranscriptionEventApplicable cur s event = true ↔
      specAutoTransApplicable cur s event := by
  unfold isAutoTranscriptionEventApplicable specAutoTransApplicable
  cases hg : (lookupQpath event.response cur.qpath).bind (fun e => e.googlets) with
  | none => simp
  | some g =>
      cases hd : s.data.transcriptDraft with
      | none => simp
      | some draft =>
          simp only [Bool.and_eq_true, Bool.or_eq_true, beq_iff_eq, Option.some_inj]
          constructor
          · rintro ⟨h1, h2⟩
            exact ⟨h1, g, draft, rfl, rfl, h2⟩
          · rintro ⟨h1, g2, d2, hg2, hd2, h2⟩
            subst hg2
            subst hd2
            exact ⟨h1, h2⟩

/-- C2: a terminal completed automatic-transcription event writes the result's
value into the transcript draft and clears the polling flag only when, at
delivery time, the event's submission edit id equals the current one and the
result's language code matches the draft's language code or region code; in
every other case the draft is left untouched. -/
theorem autoTranscription_result_application (cur : PathParts) (s : Store)
    (event : AutoTranscriptionEvent) :
    (((onRequestAutoTranscriptionCompleted cur s event).data.transcriptDraft ≠
        s.data.transcriptDraft ∨
      (onRequestAutoTranscriptionCompleted cur s event).data.isPollingForTranscript ≠
        s.data.isPollingForTranscript) →
      (specAutoTransApplicable cur s event ∧
       (onRequestAutoTranscriptionCompleted cur s event).data.isPollingForTranscript =
         false)) ∧
    (¬ specAutoTransApplicable cur s event →
      (onRequestAutoTranscriptionCompleted cur s event).data.transcriptDraft =
        s.data.transcriptDraft) := by
  unfold onRequestAutoTranscriptionCompleted
  by_cases hguard : cur.qpath = "" ∨ s.data.isPollingForTranscript = false ∨
      s.data.transcriptDraft = none
  · rw [if_pos hguard]
    refine ⟨?_, fun _ => rfl⟩
    rintro (h | h) <;> exact absurd rfl h
  · rw [if_neg hguard]
    cases hg : (lookupQpath event.response cur.qpath).bind (fun e => e.googlets) with
    | none =>
        dsimp only
        refine ⟨?_, fun _ => rfl⟩
        rintro (h | h) <;> simp [setNotPristine] at h
    | some g =>
        dsimp only
        by_cases happ : isAutoTranscriptionEventApplicable cur s event
        · rw [if_pos happ]
          have hspec := (isAutoTranscriptionEventApplicable_iff cur s event).mp happ
          refine ⟨fun _ => ⟨hspec, by simp [setNotPristine]⟩, fun hns => ?_⟩
          exact absurd hspec hns
        · rw [if_neg happ]
          have hnspec : ¬ specAutoTransApplicable cur s event := fun hs =>
            happ ((isAutoTranscriptionEventApplicable_iff cur s event).mpr hs)
          refine ⟨?_, fun _ => by simp [setNotPristine]⟩
          rintro (h | h) <;> simp [setNotPristine] at h

/-- C2 witness: with the polling store and the matching English result the
write happens and is covered by the applicability condition. -/
theorem autoTranscription_result_application_witness :
    ((((onRequestAutoTranscriptionCompleted exParts exDraftStore exAutoEvent).data.transcriptDraft ≠
        exDraftStore.data.transcriptDraft ∨
      (onRequestAutoTranscriptionCompleted exParts exDraftStore exAutoEvent).data.isPollingForTranscript ≠
        exDraftStore.data.isPollingForTranscript) →
      (specAutoTransApplicable exParts exDraftStore exAutoEvent ∧
       (onRequestAutoTranscriptionCompleted exParts exDraftStore exAutoEvent).data.isPollingForTranscript =
         false)) ∧
    (¬ specAutoTransApplicable exParts exDraftStore exAutoEvent →
      (onRequestAutoTranscriptionCompleted exParts exDraftStore exAutoEvent).data.transcriptDraft =
        exDraftStore.data.transcriptDraft)) ∧
    (onRequestAutoTranscriptionCompleted exParts exDraftStore exAutoEvent).data.transcriptDraft =
      some {value := some "hello", languageCode := some "en", regionCode := none} :=
  ⟨autoTranscription_result_application exParts exDraftStore exAutoEvent, rfl⟩

/-! Section C5 — the pristine flag -/

/-- A route change that keeps asset, question and submission never touches the
pristine flag and keeps the recorded path either unchanged or at the new
parts. -/
theorem onRouteChange_sameContext (env : Env) (s : Store) (p newParts : PathParts)
    (hprev : s.previousPath = some p)
    (ha : p.assetUid = newParts.assetUid) (hq : p.qpath = newParts.qpath)
    (he : p.submissionEditId = newParts.submissionEditId) :
    (onRouteChange env s newParts).1.data.isPristine = s.data.isPristine ∧
    ((onRouteChange env s newParts).1.previousPath = some newParts ∨
     (onRouteChange env s newParts).1.previousPath = s.previousPath) := by
  by_cases hskip : s.previousPath = some newParts
  · unfold onRouteChange
    rw [if_pos hskip]
    exact ⟨rfl, Or.inr rfl⟩
  · have hne : p ≠ newParts := by
      intro h
      apply hskip
      rw [hprev, h]
    have ht : p.tab ≠ newParts.tab := by
      intro h
      apply hne
      cases p
      cases newParts
      simp_all
    have hA := applyAnalysisTabCleanup_parts p.tab s
    rw [onRouteChange_eq_withPrevious env s p newParts hprev hne,
        routeChangeWithPrevious_case1 p newParts s ha hq he ht]
    exact ⟨by simp [hA.1], Or.inl rfl⟩

/-- In-session step facts: pristine never goes back to true, events without a
`setNotPristine` call leave the flag unchanged, and the session invariant is
preserved. -/
theorem stepSession_session (env : Env) (cur : PathParts) (s : Store) (e : SessionEvent)
    (hinv : sessionInvariant cur s) :
    ((stepSession env cur s e).data.isPristine = true → s.data.isPristine = true) ∧
    (mayMarkNotPristine e = false →
      (stepSession env cur s e).data.isPristine = s.data.isPristine) ∧
    sessionInvariant cur (stepSession env cur s e) := by
  obtain ⟨p, hp, hpa, hpq, hpe⟩ := hinv
  cases e
  case tabChange newTab =>
      have hsame := onRouteChange_sameContext env s p {cur with tab := newTab} hp hpa hpq hpe
      refine ⟨fun h => hsame.1 ▸ h, fun _ => hsame.1, ?_⟩
      rcases hsame.2 with h | h
      · exact ⟨{cur with tab := newTab}, h, rfl, rfl, rfl⟩
      · exact ⟨p, h.trans hp, hpa, hpq, hpe⟩
  case autoTranscriptionCompleted ev =>
      refine ⟨?_, fun hmark => Bool.noConfusion hmark, ⟨p, ?_, hpa, hpq, hpe⟩⟩
      · show (onRequestAutoTranscriptionCompleted cur s ev).data.isPristine = true → _
        unfold onRequestAutoTranscriptionCompleted
        split
        · exact fun h => h
        · exact fun h => Bool.noConfusion h
      · show (onRequestAutoTranscriptionCompleted cur s ev).previousPath = some p
        unfold onRequestAutoTranscriptionCompleted
        split
        · exact hp
        · dsimp only
          cases (lookupQpath ev.response cur.qpath).bind (fun e => e.googlets) with
          | none => exact hp
          | some g =>
              dsimp only
              split <;> exact hp
  case autoTranscriptionTimerFired ev =>
      refine ⟨?_, ?_, ⟨p, ?_, hpa, hpq, hpe⟩⟩
      · show ((onAutoTranscriptionTimerFired cur s ev).1.data.isPristine = true) → _
        unfold onAutoTranscriptionTimerFired requestAutoTranscription
        split <;> exact fun h => h
      · intro _
        show (onAutoTranscriptionTimerFired cur s ev).1.data.isPristine = _
        unfold onAutoTranscriptionTimerFired requestAutoTranscription
        split <;> rfl
      · show (onAutoTranscriptionTimerFired cur s ev).1.previousPath = some p
        unfold onAutoTranscriptionTimerFired requestAutoTranscription
        split <;> exact hp
  case analysisUnsavedChanged b =>
      cases b
      · exact ⟨fun h => h, fun _ => rfl, ⟨p, hp, hpa, hpq, hpe⟩⟩
      · exact ⟨fun h => Bool.noConfusion h, fun hmark => Bool.noConfusion hmark,
          ⟨p, hp, hpa, hpq, hpe⟩⟩
  case getSubmissionCompleted r =>
      exact ⟨fun h => h, fun _ => rfl, ⟨p, hp, hpa, hpq, hpe⟩⟩
  case getSubmissionFailed =>
      exact ⟨fun h => h, fun _ => rfl, ⟨p, hp, hpa, hpq, hpe⟩⟩
  case getProcessingSubmissionsCompleted index =>
      exact ⟨fun h => h, fun _ => rfl, ⟨p, hp, hpa, hpq, hpe⟩⟩
  case getProcessingSubmissionsFailed =>
      exact ⟨fun h => h, fun _ => rfl, ⟨p, hp, hpa, hpq, hpe⟩⟩
  case fetchProcessingStarted habort =>
      exact ⟨fun h => h, fun _ => rfl, ⟨p, hp, hpa, hpq, hpe⟩⟩
  case fetchProcessingCompleted r =>
      exact ⟨fun h => h, fun _ => rfl, ⟨p, hp, hpa, hpq, hpe⟩⟩
  case anyCallFailed input =>
      exact ⟨fun h => h, fun _ => rfl, ⟨p, hp, hpa, hpq, hpe⟩⟩
  case setTranscriptCompleted r =>
      exact ⟨fun h => Bool.noConfusion h, fun hmark => Bool.noConfusion hmark,
        ⟨p, hp, hpa, hpq, hpe⟩⟩
  case deleteTranscriptCompleted =>
      exact ⟨fun h => Bool.noConfusion h, fun hmark => Bool.noConfusion hmark,
        ⟨p, hp, hpa, hpq, hpe⟩⟩
  case setTranslationCompleted l =>
      exact ⟨fun h => Bool.noConfusion h, fun hmark => Bool.noConfusion hmark,
        ⟨p, hp, hpa, hpq, hpe⟩⟩
  case autoTranslationCompleted r =>
      refine ⟨fun h => Bool.noConfusion h, fun hmark => Bool.noConfusion hmark,
        ⟨p, ?_, hpa, hpq, hpe⟩⟩
      show (onRequestAutoTranslationCompleted cur s r).previousPath = some p
      unfold onRequestAutoTranslationCompleted
      dsimp only
      split
      · split <;> exact hp
      · exact hp
  case userSetSource lc =>
      exact ⟨fun h => h, fun _ => rfl, ⟨p, hp, hpa, hpq, hpe⟩⟩
  case userSetTranscript lc v =>
      exact ⟨fun h => h, fun _ => rfl, ⟨p, hp, hpa, hpq, hpe⟩⟩
  case userDeleteTranscript =>
      exact ⟨fun h => h, fun _ => rfl, ⟨p, hp, hpa, hpq, hpe⟩⟩
  case userRequestAutoTranscription =>
      exact ⟨fun h => h, fun _ => rfl, ⟨p, hp, hpa, hpq, hpe⟩⟩
  case userSetTranscriptDraft d =>
      exact ⟨fun h => h, fun _ => rfl, ⟨p, hp, hpa, hpq, hpe⟩⟩
  case userDeleteTranscriptDraft =>
      exact ⟨fun h => h, fun _ => rfl, ⟨p, hp, hpa, hpq, hpe⟩⟩
  case userSetTranslation lc v =>
      exact ⟨fun h => h, fun _ => rfl, ⟨p, hp, hpa, hpq, hpe⟩⟩
  case userDeleteTranslation lc =>
      exact ⟨fun h => h, fun _ => rfl, ⟨p, hp, hpa, hpq, hpe⟩⟩
  case userRequestAutoTranslation lc =>
      exact ⟨fun h => h, fun _ => rfl, ⟨p, hp, hpa, hpq, hpe⟩⟩
  case userSetTranslationDraft d =>
      exact ⟨fun h => h, fun _ => rfl, ⟨p, hp, hpa, hpq, hpe⟩⟩
  case userDeleteTranslationDraft =>
      exact ⟨fun h => h, fun _ => rfl, ⟨p, hp, hpa, hpq, hpe⟩⟩
  case userSetDisplays tab d =>
      refine ⟨?_, ?_, ⟨p, ?_, hpa, hpq, hpe⟩⟩
      · show (setDisplays s tab d).data.isPristine = true → _
        cases tab <;> exact fun h => h
      · intro _
        show (setDisplays s tab d).data.isPristine = _
        cases tab <;> rfl
      · show (setDisplays s tab d).previousPath = some p
        cases tab <;> exact hp
  case userResetDisplays tab =>
      refine ⟨?_, ?_, ⟨p, ?_, hpa, hpq, hpe⟩⟩
      · show (resetDisplays s tab).data.isPristine = true → _
        cases tab <;> exact fun h => h
      · intro _
        show (resetDisplays s tab).data.isPristine = _
        cases tab <;> rfl
      · show (resetDisplays s tab).previousPath = some p
        cases tab <;> exact hp

/-- The session invariant holds along any run of session events. -/
theorem runSession_invariant (env : Env) (cur : PathParts) (es : List SessionEvent)
    (s : Store) (h : sessionInvariant cur s) :
    sessionInvariant cur (runSession env cur s es) := by
  induction es generalizing s with
  | nil => exact h
  | cons e es ih => exact ih _ ((stepSession_session env cur s e h).2.2)

/-- The pristine flag never returns to true along a run of session events. -/
theorem runSession_pristine_mono (env : Env) (cur : PathParts) (es : List SessionEvent)
    (s : Store) (h : sessionInvariant cur s) :
    (runSession env cur s es).data.isPristine = true → s.data.isPristine = true := by
  induction es generalizing s with
  | nil => exact fun h2 => h2
  | cons e es ih =>
      intro h2
      exact (stepSession_session env cur s e h).1
        (ih _ ((stepSession_session env cur s e h).2.2) h2)

/-- C5 counterexample: an automatic-transcription completion that is not
applicable (stale submission id) — an event that performs no persisted
mutation, changes no draft and is no analysis-tab edit — still flips the
pristine flag from true to false. -/
theorem pristine_flips_without_persisted_mutation :
    exDraftStore.data.isPristine = true ∧
    (stepSession exEnv exParts exDraftStore
        (SessionEvent.autoTranscriptionCompleted exAutoEventStale)).data.isPristine = false ∧
    (stepSession exEnv exParts exDraftStore
        (SessionEvent.autoTranscriptionCompleted exAutoEventStale)).data.transcript =
      exDraftStore.data.transcript ∧
    (stepSession exEnv exParts exDraftStore
        (SessionEvent.autoTranscriptionCompleted exAutoEventStale)).data.translations =
      exDraftStore.data.translations ∧
    (stepSession exEnv exParts exDraftStore
        (SessionEvent.autoTranscriptionCompleted exAutoEventStale)).data.transcriptDraft =
      exDraftStore.data.transcriptDraft ∧
    (stepSession exEnv exParts exDraftStore
        (SessionEvent.autoTranscriptionCompleted exAutoEventStale)).analysisTabHasUnsavedWork =
      exDraftStore.analysisTabHasUnsavedWork := by
  refine ⟨rfl, ?_, ?_, ?_, ?_, ?_⟩ <;> decide

/-- C5 (amended): a view session starts pristine (`resetProcessingData` sets
the flag), along any run of in-session events the flag never returns to true
once false (hence it transitions to false at most once), and an event whose
handler contains no `setNotPristine` call — anything other than a
transcript/translation commit or deletion completion, an automatic
transcription/translation completion, or an analysis edit reporting unsaved
work — leaves the flag unchanged. -/
theorem pristine_lifecycle (env : Env) (cur : PathParts) (s : Store)
    (es1 es2 : List SessionEvent) (e : SessionEvent) (hinv : sessionInvariant cur s) :
    ((resetProcessingData s).data.isPristine = true) ∧
    ((runSession env cur s (es1 ++ es2)).data.isPristine = true →
      (runSession env cur s es1).data.isPristine = true) ∧
    (mayMarkNotPristine e = false →
      (stepSession env cur s e).data.isPristine = s.data.isPristine) := by
  refine ⟨rfl, ?_, (stepSession_session env cur s e hinv).2.1⟩
  intro h
  have hsplit : runSession env cur s (es1 ++ es2) =
      runSession env cur (runSession env cur s es1) es2 := by
    simp [runSession, List.foldl_append]
  rw [hsplit] at h
  exact runSession_pristine_mono env cur es2 _
    (runSession_invariant env cur es1 s hinv) h

/-- C5 witness: a concrete session at `exParts`. -/
theorem pristine_lifecycle_witness :
    ((resetProcessingData exDraftStore).data.isPristine = true) ∧
    ((runSession exEnv exParts exDraftStore
        ([SessionEvent.getSubmissionFailed] ++
          [SessionEvent.deleteTranscriptCompleted])).data.isPristine = true →
      (runSession exEnv exParts exDraftStore
        [SessionEvent.getSubmissionFailed]).data.isPristine = true) ∧
    (mayMarkNotPristine SessionEvent.userDeleteTranscriptDraft = false →
      (stepSession exEnv exParts exDraftStore
          SessionEvent.userDeleteTranscriptDraft).data.isPristine =
        exDraftStore.data.isPristine) :=
  pristine_lifecycle exEnv exParts exDraftStore [SessionEvent.getSubmissionFailed]
    [SessionEvent.deleteTranscriptCompleted] SessionEvent.userDeleteTranscriptDraft
    ⟨exParts, rfl, rfl, rfl, rfl⟩

/-! Section C9 — aborted requests stay silent -/

/-- C9: a request that failed because it was purposely aborted (status `0`,
status text `"abort"`) produces no user-visible notification: `handleApiFail`
returns without notifying for exactly these responses, and the cancelled
payload fetch delivers no failure callback to the store at all, so
`onAnyCallFailed` never runs for it; a genuine (non-aborted) failure reaching
`handleApiFail` does produce a notification. -/
theorem abortedRequest_noNotification (domPluckErrormsg : String → Option String)
    (onLine : Bool) (response : FailResponse) (toastMessage : Option String) (s : Store) :
    (response.status = 0 ∧ response.statusText = "abort" →
      handleApiFail domPluckErrormsg onLine response toastMessage = none) ∧
    (∀ out, handleApiFail domPluckErrormsg onLine response toastMessage = some out →
      ¬(response.status = 0 ∧ response.statusText = "abort")) ∧
    (payloadFetchFailureEffects true s response = []) ∧
    (¬(response.status = 0 ∧ response.statusText = "abort") →
      ∃ out, handleApiFail domPluckErrormsg onLine response toastMessage = some out) := by
  refine ⟨?_, ?_, rfl, ?_⟩
  · intro h
    unfold handleApiFail
    rw [if_pos h]
  · intro out hout h
    unfold handleApiFail at hout
    rw [if_pos h] at hout
    cases hout
  · intro h
    unfold handleApiFail
    rw [if_neg h]
    exact ⟨_, rfl⟩

end Kpi
